import Mathlib

/-!
Shallow embedding of `opennmt/models/model.py`: the learning-rate decay
policy (`learning_rate_decay_fn` and the closure `decay_fn` it returns),
the word counters (`Model._count_words`), the example filter
(`Model._filter_example`), the bucketing key function (`key_func` inside
`Model._input_fn_impl`), the input pipeline construction
(`Model._input_fn_impl` / `Model.input_fn`) and the training-op builder
(`Model._build_train_op`), together with theorems checking the
specification's statements about them.

Conventions: learning rates and decay parameters are rationals; steps and
lengths are integers (Python `//` is floor division, embedded as
`Int.fdiv`); a Python module namespace used with `getattr` is an
association list from attribute names to functions; a Python function that
may raise is embedded as a function into `Except ModelError`.
-/

/-- Errors raised by the embedded code (`ValueError` in the source; the
specification calls both configuration errors). -/
inductive ModelError where
  | unknownDecayFunction (decay_type : String)
  | labelsFileRequired
deriving DecidableEq

/-- Signature shared by the decay operators of the `tf.train` and
`opennmt.utils.decay` namespaces: arguments are
`(learning_rate, global_step, decay_steps, decay_rate, staircase)`. -/
abbrev DecayOp : Type := ℚ → ℤ → ℤ → ℚ → Bool → ℚ

/-- A module namespace holding decay operators, looked up by name. -/
abbrev DecayEnv : Type := List (String × DecayOp)

/-- Models `getattr(module, name, None)`: the first binding of `name`, if any. -/
def getattrOpt (env : DecayEnv) (name : String) : Option DecayOp :=
  Option.map Prod.snd (List.find? (fun p => p.1 == name) env)

/-- The arguments of `learning_rate_decay_fn` (lines 12-17), captured by the
closure `decay_fn`. -/
structure DecayConfig where
  decay_type : String
  decay_rate : ℚ
  decay_steps : ℤ
  staircase : Bool
  start_decay_steps : ℤ
  minimum_learning_rate : ℚ

/-- Resolution of `decay_type` performed inside `decay_fn` (lines 32-38):
starting from `None`, try `getattr(tf.train, decay_type, None)`, then
`getattr(decay, decay_type, None)` where `decay` is `opennmt.utils.decay`. -/
def decay_op_resolution (tf_train decay_module : DecayEnv)
    (decay_type : String) : Option DecayOp :=
  let decay_op : Option DecayOp := none
  let decay_op := match decay_op with
    | none => getattrOpt tf_train decay_type
    | some f => some f
  let decay_op := match decay_op with
    | none => getattrOpt decay_module decay_type
    | some f => some f
  decay_op

/-- Embeds the closure `decay_fn` returned by `learning_rate_decay_fn`
(lines 31-49): resolve the decay operator by name (raising `ValueError` when
the name is bound in neither namespace), apply it at step
`tf.maximum(global_step - start_decay_steps, 0)`, and clamp the result from
below by `minimum_learning_rate`. -/
def decay_fn (tf_train decay_module : DecayEnv) (cfg : DecayConfig)
    (learning_rate : ℚ) (global_step : ℤ) : Except ModelError ℚ :=
  match decay_op_resolution tf_train decay_module cfg.decay_type with
  | none => Except.error (ModelError.unknownDecayFunction cfg.decay_type)
  | some decay_op =>
    let decayed_learning_rate :=
      decay_op learning_rate (max (global_step - cfg.start_decay_steps) 0)
        cfg.decay_steps cfg.decay_rate cfg.staircase
    Except.ok (max decayed_learning_rate cfg.minimum_learning_rate)

/-- Embeds `learning_rate_decay_fn` (lines 12-51): its body only defines the
closure `decay_fn` and returns it; no statement in it can raise, so the
construction always succeeds. -/
def learning_rate_decay_fn (tf_train decay_module : DecayEnv)
    (cfg : DecayConfig) : Except ModelError (ℚ → ℤ → Except ModelError ℚ) :=
  Except.ok (fun learning_rate global_step =>
    decay_fn tf_train decay_module cfg learning_rate global_step)

/-- An example mapping, reduced to the one field the embedded code reads:
`mapping.get("length")` (absent when the mapping has no `length` key). -/
structure Example (α : Type) where
  length : Option α
deriving DecidableEq

/-- The `labels` argument as the source discriminates it: Python `None`, a
value that is not a mapping (e.g. a bare tensor), or an example mapping. -/
inductive Labels (α : Type) where
  | pyNone
  | nonMapping
  | mapping (m : Example α)
deriving DecidableEq

/-- One counter update performed by `_add_counter(word_count, name)`
(lines 70-80): a named accumulator incremented by `word_count`. -/
structure CounterUpdate where
  name : String
  amount : ℤ
deriving DecidableEq

/-- Embeds `Model._count_words` (lines 68-89): reads
`features.get("length")`, and `labels.get("length")` only when `labels` is
a non-`None` mapping; for each present length it adds
`tf.reduce_sum(length)` to the counter of that modality. The result is the
ordered list of counter updates performed (empty parts when the `length`
field is absent). A `length` is a 1-D batch of integers, summed. -/
def Model.count_words (features : Example (List ℤ))
    (labels : Labels (List ℤ)) : List CounterUpdate :=
  let features_length := features.length
  let labels_length :=
    match labels with
    | Labels.mapping m => m.length
    | _ => none
  (match features_length with
   | some v => [CounterUpdate.mk "features" v.sum]
   | none => [])
  ++
  (match labels_length with
   | some v => [CounterUpdate.mk "labels" v.sum]
   | none => [])

/-- Embeds `Model._filter_example` (lines 126-147): collect
`features_length > 0`, `features_length <= maximum_features_length` (bound
set), `labels_length > 0`, `labels_length <= maximum_labels_length` (bound
set) for the lengths that are present, in source order, and return
`tf.reduce_all(cond)` — `true` on the empty list. -/
def Model.filter_example (features : Example ℤ) (labels : Labels ℤ)
    (maximum_features_length : Option ℤ)
    (maximum_labels_length : Option ℤ) : Bool :=
  let features_length := features.length
  let labels_length :=
    match labels with
    | Labels.mapping m => m.length
    | _ => none
  let cond : List Bool := []
  let cond := cond ++
    (match features_length with
     | some l =>
       [decide (l > 0)] ++
         (match maximum_features_length with
          | some b => [decide (l ≤ b)]
          | none => [])
     | none => [])
  let cond := cond ++
    (match labels_length with
     | some l =>
       [decide (l > 0)] ++
         (match maximum_labels_length with
          | some b => [decide (l ≤ b)]
          | none => [])
     | none => [])
  cond.all (fun b => b)

/-- Embeds `key_func` (lines 218-226) from `Model._input_fn_impl`: Python
`if maximum_features_length:` is truthiness, false for `None` and for `0`;
`//` is floor division (`Int.fdiv`); the bucket id is clamped from above by
`num_buckets`. -/
def key_func (maximum_features_length : Option ℤ) (num_buckets : ℤ)
    (length : ℤ) : ℤ :=
  let bucket_width :=
    match maximum_features_length with
    | some m =>
      if m = 0 then 10 else Int.fdiv (m + num_buckets - 1) num_buckets
    | none => 10
  min (Int.fdiv length bucket_width) num_buckets

/-- The three `tf.estimator.ModeKeys` modes. -/
inductive Mode where
  | train
  | eval
  | predict
deriving DecidableEq

/-- The dataset pipeline assembled by `Model._input_fn_impl` (lines
177-243), as the record of the stages applied (no tensor runtime here):
which files feed it, whether the training-only filter/shuffle/repeat stages
run (with the bounds the filter gets and the shuffle buffer size), and
whether batching goes through `group_by_window` with `key_func` (recording
the arguments `key_func` closes over) or a single `padded_batch`. -/
structure PipelineSpec where
  features_file : String
  labels_file : Option String
  train_filter : Option (Option ℤ × Option ℤ)
  shuffle_buffer : Option ℕ
  repeated : Bool
  bucketing : Option (Option ℤ × ℤ)
  batch_size : ℕ
deriving DecidableEq

/-- Embeds `Model._input_fn_impl` (lines 177-243): zip in the labels stream
when `labels_file` is given; in training mode filter with
`_filter_example` under the two bounds, shuffle with `buffer_size`, and
repeat; batch through `group_by_window`/`key_func` unless the mode is
predict or `num_buckets <= 1`. No validation of any argument happens here. -/
def Model.input_fn_impl (mode : Mode) (batch_size : ℕ) (buffer_size : ℕ)
    (num_buckets : ℤ) (features_file : String) (labels_file : Option String)
    (maximum_features_length maximum_labels_length : Option ℤ) :
    PipelineSpec :=
  { features_file := features_file
    labels_file := labels_file
    train_filter :=
      if mode = Mode.train then
        some (maximum_features_length, maximum_labels_length)
      else none
    shuffle_buffer := if mode = Mode.train then some buffer_size else none
    repeated := decide (mode = Mode.train)
    bucketing :=
      if mode = Mode.predict ∨ num_buckets ≤ 1 then none
      else some (maximum_features_length, num_buckets)
    batch_size := batch_size }

/-- Embeds `Model.input_fn` (lines 245-288): raise `ValueError` when the
mode is not predict and `labels_file` is `None` (lines 276-277), otherwise
return the pipeline built by `_input_fn_impl`. This is the only check
performed before the pipeline is built. -/
def Model.input_fn (mode : Mode) (batch_size : ℕ) (buffer_size : ℕ)
    (num_buckets : ℤ) (features_file : String) (labels_file : Option String)
    (maximum_features_length maximum_labels_length : Option ℤ) :
    Except ModelError PipelineSpec :=
  if mode ≠ Mode.predict ∧ labels_file = none then
    Except.error ModelError.labelsFileRequired
  else
    Except.ok (Model.input_fn_impl mode batch_size buffer_size num_buckets
      features_file labels_file maximum_features_length
      maximum_labels_length)

/-- The `params` mapping consumed by `Model._build_train_op` (lines
96-124). -/
structure TrainParams where
  decay_type : Option String
  decay_rate : ℚ
  decay_steps : ℤ
  staircase : Bool
  start_decay_steps : ℤ
  minimum_learning_rate : ℚ
  learning_rate : ℚ
  optimizer : String
  clip_gradients : ℚ

/-- The arguments `Model._build_train_op` hands to
`tf.contrib.layers.optimize_loss` (lines 111-122). -/
structure TrainOpSpec where
  learning_rate : ℚ
  optimizer : String
  clip_gradients : ℚ
  decay_fn : Option (ℚ → ℤ → Except ModelError ℚ)
  summaries : List String

/-- Embeds `Model._build_train_op` (lines 96-124): when
`params["decay_type"]` is not `None` build the decay function with
`learning_rate_decay_fn`, otherwise pass `decay_fn = None`; hand the raw
`params["learning_rate"]` and the rest of the configuration to the external
optimizer step builder. -/
def Model.build_train_op (tf_train decay_module : DecayEnv)
    (params : TrainParams) : Except ModelError TrainOpSpec := do
  let decay_fn ← match params.decay_type with
    | some dt => do
      let f ← learning_rate_decay_fn tf_train decay_module
        { decay_type := dt
          decay_rate := params.decay_rate
          decay_steps := params.decay_steps
          staircase := params.staircase
          start_decay_steps := params.start_decay_steps
          minimum_learning_rate := params.minimum_learning_rate }
      pure (some f)
    | none => pure none
  pure { learning_rate := params.learning_rate
         optimizer := params.optimizer
         clip_gradients := params.clip_gradients
         decay_fn := decay_fn
         summaries := ["learning_rate", "loss", "global_gradient_norm"] }

/-- Modelled from the spec: `tf.contrib.layers.optimize_loss` is external
to this repository; per the specification it applies the given decay
function to the base learning rate at each global step, and uses the base
learning rate unmodified when no decay function is given. -/
def effective_learning_rate (spec : TrainOpSpec) (global_step : ℤ) :
    Except ModelError ℚ :=
  match spec.decay_fn with
  | none => Except.ok spec.learning_rate
  | some f => f spec.learning_rate global_step

/-- A sample decay operator used to instantiate theorems: inverse-time
decay of the learning rate. -/
def sample_decay_op : DecayOp := fun learning_rate global_step _ _ _ =>
  learning_rate / (1 + (global_step : ℚ))

/-- A second sample decay operator used to instantiate theorems: constant. -/
def const_decay_op : DecayOp := fun _ _ _ _ _ => 2

/-- Concrete training parameters used to instantiate theorems: no decay. -/
def sample_train_params : TrainParams :=
  { decay_type := none
    decay_rate := 1
    decay_steps := 1
    staircase := true
    start_decay_steps := 0
    minimum_learning_rate := 0
    learning_rate := 1
    optimizer := "sgd"
    clip_gradients := 5 }

/-- C6: for every mode other than predict, `input_fn` with
`labels_file = None` raises the labels-file configuration error immediately
(an error is returned instead of a pipeline, so no batch can be produced);
with a labels file given, or in predict mode, no such error is raised. -/
theorem input_fn_requires_labels_file (mode : Mode) (batch_size : ℕ)
    (buffer_size : ℕ) (num_buckets : ℤ) (features_file : String)
    (labels_file : Option String) (mfl mll : Option ℤ) :
    (Model.input_fn mode batch_size buffer_size num_buckets features_file
        labels_file mfl mll = Except.error ModelError.labelsFileRequired
      ↔ mode ≠ Mode.predict ∧ labels_file = none)
    ∧ ((Model.input_fn mode batch_size buffer_size num_buckets features_file
        labels_file mfl mll).isOk = true
      ↔ mode = Mode.predict ∨ labels_file ≠ none) := by
  unfold Model.input_fn
  by_cases h : mode ≠ Mode.predict ∧ labels_file = none
  · simp [h]
    tauto
  · simp [h]
    tauto

/-- C5 counterexample: a `maximum_features_length` of zero and a
`maximum_labels_length` of `-1` are NOT rejected — `input_fn` succeeds and
builds the pipeline, so the claimed fail-fast validation does not exist in
the code. -/
theorem input_fn_accepts_nonpositive_bounds :
    (Model.input_fn Mode.train 32 1000 5 "features.txt" (some "labels.txt")
      (some 0) (some (-1))).isOk = true := by decide

/-- C5 amended: `input_fn` performs no validation of
`maximum_features_length` or `maximum_labels_length`: for every mode,
whenever a labels file is given, the pipeline is built without error for
arbitrary bounds, zero or negative included, and the bounds are passed
through unvalidated to the training filter and the bucketing stage. -/
theorem input_fn_no_bound_validation (mode : Mode) (batch_size : ℕ)
    (buffer_size : ℕ) (num_buckets : ℤ) (features_file : String)
    (labels_name : String) (mfl mll : Option ℤ) :
    Model.input_fn mode batch_size buffer_size num_buckets features_file
      (some labels_name) mfl mll
    = Except.ok (Model.input_fn_impl mode batch_size buffer_size num_buckets
        features_file (some labels_name) mfl mll) := by
  simp [Model.input_fn]

/-- C7: the example filter returns the conjunction of the applicable
conditions — a present features length must be positive and within
`maximum_features_length` when that bound is set, and symmetrically for a
labels mapping carrying a length; with no length present the filter
accepts. The four concrete cases of the specification are included. -/
theorem filter_example_conjunction (flen : Option ℤ) (labels : Labels ℤ)
    (mfl mll : Option ℤ) :
    (Model.filter_example ⟨flen⟩ labels mfl mll = true ↔
      ((∀ l, flen = some l → 0 < l ∧ ∀ b, mfl = some b → l ≤ b) ∧
       (∀ l, labels = Labels.mapping ⟨some l⟩ →
          0 < l ∧ ∀ b, mll = some b → l ≤ b)))
    ∧ Model.filter_example ⟨some 0⟩ Labels.pyNone none none = false
    ∧ Model.filter_example ⟨some 5⟩ Labels.pyNone (some 4) none = false
    ∧ Model.filter_example ⟨some 5⟩ Labels.pyNone (some 10) none = true
    ∧ Model.filter_example ⟨none⟩ Labels.pyNone none none = true := by
  refine ⟨?_, by decide, by decide, by decide, by decide⟩
  rcases flen with _ | l <;>
    rcases labels with _ | _ | ⟨_ | ll⟩ <;>
      rcases mfl with _ | bf <;>
        rcases mll with _ | bl <;>
          simp [Model.filter_example] <;> tauto

/-- C9: word counting performs a `features` counter update exactly when the
features mapping carries a `length`, and a `labels` counter update exactly
when `labels` is a mapping carrying a `length`; each update adds the batch
sum of the corresponding lengths. -/
theorem count_words_counters (features : Example (List ℤ))
    (labels : Labels (List ℤ)) :
    ((∃ u ∈ Model.count_words features labels, u.name = "features")
      ↔ features.length ≠ none)
    ∧ ((∃ u ∈ Model.count_words features labels, u.name = "labels")
      ↔ ∃ v, labels = Labels.mapping ⟨some v⟩)
    ∧ (∀ v, features.length = some v →
        CounterUpdate.mk "features" v.sum ∈ Model.count_words features labels)
    ∧ (∀ v, labels = Labels.mapping ⟨some v⟩ →
        CounterUpdate.mk "labels" v.sum ∈ Model.count_words features labels) := by
  rcases features with ⟨_ | fv⟩ <;>
    rcases labels with _ | _ | ⟨_ | lv⟩ <;>
      simp [Model.count_words]

/-- C8: with `decay_type = None` the training-op builder applies no decay
function — the optimizer step builder receives `decay_fn = None` together
with the raw configured learning rate, and the effective learning rate it
uses equals that raw rate at every global step. -/
theorem build_train_op_no_decay (tf_train decay_module : DecayEnv)
    (params : TrainParams) (h : params.decay_type = none) :
    ∃ s, Model.build_train_op tf_train decay_module params = Except.ok s
      ∧ s.decay_fn = none
      ∧ s.learning_rate = params.learning_rate
      ∧ ∀ global_step, effective_learning_rate s global_step
          = Except.ok params.learning_rate := by
  refine ⟨{ learning_rate := params.learning_rate
            optimizer := params.optimizer
            clip_gradients := params.clip_gradients
            decay_fn := none
            summaries := ["learning_rate", "loss", "global_gradient_norm"] },
    ?_, rfl, rfl, fun global_step => rfl⟩
  simp only [Model.build_train_op, h]
  rfl

/-- C8 witness: the no-decay training-op builder at concrete parameters. -/
theorem build_train_op_no_decay_witness :
    ∃ s, Model.build_train_op [] [] sample_train_params = Except.ok s
      ∧ s.decay_fn = none
      ∧ s.learning_rate = sample_train_params.learning_rate
      ∧ ∀ global_step, effective_learning_rate s global_step
          = Except.ok sample_train_params.learning_rate :=
  build_train_op_no_decay [] [] sample_train_params rfl

/-- C10: for every `decay_type`, including one bound in neither namespace,
`learning_rate_decay_fn` returns a decay function without raising; the
unknown-decay-type error surfaces only when the returned function is
applied to a learning rate and a global step. -/
theorem learning_rate_decay_fn_defers_resolution
    (tf_train decay_module : DecayEnv) (cfg : DecayConfig) :
    ∃ f, learning_rate_decay_fn tf_train decay_module cfg = Except.ok f
      ∧ (decay_op_resolution tf_train decay_module cfg.decay_type = none →
          ∀ learning_rate global_step,
            f learning_rate global_step
              = Except.error (ModelError.unknownDecayFunction cfg.decay_type)) := by
  refine ⟨_, rfl, fun h learning_rate global_step => ?_⟩
  simp [decay_fn, h]

/-- C10 witness: with empty namespaces and the unknown name `nope`,
construction succeeds and the error appears at application time. -/
theorem learning_rate_decay_fn_defers_resolution_witness :
    ∃ f, learning_rate_decay_fn [] [] ⟨"nope", 1, 1, true, 0, 0⟩
        = Except.ok f
      ∧ f 1 0 = Except.error (ModelError.unknownDecayFunction "nope") := by
  obtain ⟨f, hf, he⟩ :=
    learning_rate_decay_fn_defers_resolution [] [] ⟨"nope", 1, 1, true, 0, 0⟩
  exact ⟨f, hf, he rfl 1 0⟩

/-- C2: the decay function applies the resolved strategy at
`effective_step = max(global_step - start_decay_steps, 0)`, so for every
`global_step < start_decay_steps` the decayed learning rate equals the rate
obtained at `effective_step = 0` (explicitly: the clamped application of
the resolved operator at step `0`, which is also the rate at
`global_step = start_decay_steps`). -/
theorem decay_fn_before_start (tf_train decay_module : DecayEnv)
    (cfg : DecayConfig) (learning_rate : ℚ) (global_step : ℤ)
    (h : global_step < cfg.start_decay_steps) :
    decay_fn tf_train decay_module cfg learning_rate global_step
      = decay_fn tf_train decay_module cfg learning_rate cfg.start_decay_steps
    ∧ ∀ op, decay_op_resolution tf_train decay_module cfg.decay_type = some op →
        decay_fn tf_train decay_module cfg learning_rate global_step
          = Except.ok (max (op learning_rate 0 cfg.decay_steps cfg.decay_rate
              cfg.staircase) cfg.minimum_learning_rate) := by
  have hstep : max (global_step - cfg.start_decay_steps) 0 = 0 :=
    max_eq_right (by omega)
  constructor
  · unfold decay_fn
    cases decay_op_resolution tf_train decay_module cfg.decay_type with
    | none => rfl
    | some op => simp [hstep]
  · intro op hop
    unfold decay_fn
    rw [hop]
    simp [hstep]

/-- C2 witness: with an inverse-time operator starting at step 5, the rate
at global step 3 equals the rate at global step 5 and is the clamped
application at effective step 0. -/
theorem decay_fn_before_start_witness :
    decay_fn [("inv", sample_decay_op)] [] ⟨"inv", 1, 2, true, 5, 0⟩ 1 3
      = decay_fn [("inv", sample_decay_op)] [] ⟨"inv", 1, 2, true, 5, 0⟩ 1 5
    ∧ decay_fn [("inv", sample_decay_op)] [] ⟨"inv", 1, 2, true, 5, 0⟩ 1 3
      = Except.ok (max (sample_decay_op 1 0 2 1 true) 0) := by
  have h := decay_fn_before_start [("inv", sample_decay_op)] []
    ⟨"inv", 1, 2, true, 5, 0⟩ 1 3 (by decide)
  exact ⟨h.1, h.2 sample_decay_op rfl⟩

/-- C3: whenever the decay function returns a value (the decay type
resolved), that value is at least `minimum_learning_rate`. -/
theorem decay_fn_respects_minimum (tf_train decay_module : DecayEnv)
    (cfg : DecayConfig) (learning_rate v : ℚ) (global_step : ℤ)
    (h : decay_fn tf_train decay_module cfg learning_rate global_step
      = Except.ok v) :
    cfg.minimum_learning_rate ≤ v := by
  revert h
  unfold decay_fn
  cases decay_op_resolution tf_train decay_module cfg.decay_type with
  | none => intro h; exact absurd h (by simp)
  | some op =>
    intro h
    simp only [Except.ok.injEq] at h
    rw [← h]
    exact le_max_right _ _

/-- C3 witness: at concrete inputs where the operator output `1/2` falls
below the minimum learning rate `1`, the returned value is `1`, which is at
least the minimum. -/
theorem decay_fn_respects_minimum_witness :
    (1 : ℚ) ≤ 1
    ∧ decay_fn [("inv", sample_decay_op)] [] ⟨"inv", 1, 1, true, 0, 1⟩ 1 1
        = Except.ok 1 := by
  have hv : decay_fn [("inv", sample_decay_op)] []
      ⟨"inv", 1, 1, true, 0, 1⟩ 1 1 = Except.ok 1 := by
    simp [decay_fn, decay_op_resolution, getattrOpt, sample_decay_op]
    norm_num
  exact ⟨decay_fn_respects_minimum [("inv", sample_decay_op)] []
    ⟨"inv", 1, 1, true, 0, 1⟩ 1 1 1 hv, hv⟩

/-- C4: resolution of `decay_type` tries the standard namespace first and
the custom namespace second — an error is raised if and only if the name is
bound in neither namespace; when the standard namespace binds the name the
custom namespace is irrelevant, and when the standard namespace misses, the
result is as if the custom namespace were the primary one. -/
theorem decay_type_resolution_order (tf_train decay_module : DecayEnv)
    (cfg : DecayConfig) (learning_rate : ℚ) (global_step : ℤ) :
    ((∃ e, decay_fn tf_train decay_module cfg learning_rate global_step
        = Except.error e)
      ↔ getattrOpt tf_train cfg.decay_type = none
        ∧ getattrOpt decay_module cfg.decay_type = none)
    ∧ (∀ op, getattrOpt tf_train cfg.decay_type = some op →
        ∀ other_module,
          decay_fn tf_train decay_module cfg learning_rate global_step
            = decay_fn tf_train other_module cfg learning_rate global_step)
    ∧ (getattrOpt tf_train cfg.decay_type = none →
        decay_fn tf_train decay_module cfg learning_rate global_step
          = decay_fn decay_module [] cfg learning_rate global_step) := by
  refine ⟨?_, ?_, ?_⟩
  · unfold decay_fn decay_op_resolution
    cases h₁ : getattrOpt tf_train cfg.decay_type with
    | some op => simp [h₁]
    | none =>
      cases h₂ : getattrOpt decay_module cfg.decay_type with
      | some op => simp [h₁, h₂]
      | none => simp [h₁, h₂]
  · intro op hop other_module
    unfold decay_fn decay_op_resolution
    rw [hop]
  · intro h₁
    unfold decay_fn decay_op_resolution
    rw [h₁]
    cases h₂ : getattrOpt decay_module cfg.decay_type with
    | some op => simp [getattrOpt]
    | none => simp [getattrOpt]

/-- C4 witness: with the name `d` bound in both namespaces the standard
binding wins (the custom namespace can be replaced by the empty one without
changing the result), and with the name bound in neither namespace the
application errors. -/
theorem decay_type_resolution_order_witness :
    decay_fn [("d", sample_decay_op)] [("d", const_decay_op)]
        ⟨"d", 1, 1, true, 0, 0⟩ 1 0
      = decay_fn [("d", sample_decay_op)] [] ⟨"d", 1, 1, true, 0, 0⟩ 1 0
    ∧ ∃ e, decay_fn [] [] ⟨"d", 1, 1, true, 0, 0⟩ 1 0 = Except.error e :=
  ⟨(decay_type_resolution_order [("d", sample_decay_op)]
      [("d", const_decay_op)] ⟨"d", 1, 1, true, 0, 0⟩ 1 0).2.1
      sample_decay_op rfl [],
   (decay_type_resolution_order [] [] ⟨"d", 1, 1, true, 0, 0⟩ 1 0).1.mpr
      ⟨rfl, rfl⟩⟩

/-- Floor division of integers agrees with the rational floor when the
divisor is positive. -/
theorem fdiv_eq_rat_floor (a b : ℤ) (hb : 0 < b) :
    a.fdiv b = ⌊(a : ℚ) / (b : ℚ)⌋ := by
  obtain ⟨n, rfl⟩ : ∃ n : ℕ, b = (n : ℤ) :=
    ⟨b.toNat, (Int.toNat_of_nonneg hb.le).symm⟩
  rw [Int.fdiv_eq_ediv a (by exact_mod_cast Nat.zero_le n)]
  rw [← Rat.floor_intCast_div_natCast a n]
  norm_num

/-- The source's width formula `(m + n - 1) // n` is the rational ceiling
of `m / n` when the divisor is positive. -/
theorem fdiv_add_pred_eq_rat_ceil (m n : ℤ) (hn : 0 < n) :
    (m + n - 1).fdiv n = ⌈(m : ℚ) / (n : ℚ)⌉ := by
  have hnq : (0 : ℚ) < (n : ℚ) := by exact_mod_cast hn
  rw [fdiv_eq_rat_floor _ _ hn, Int.floor_eq_iff]
  have hle : (m : ℚ) / n ≤ (⌈(m : ℚ) / n⌉ : ℚ) := Int.le_ceil _
  have hlt : ((⌈(m : ℚ) / n⌉ : ℚ)) < (m : ℚ) / n + 1 := Int.ceil_lt_add_one _
  have h1 : (m : ℤ) ≤ ⌈(m : ℚ) / n⌉ * n := by
    have h := (div_le_iff₀ hnq).mp hle
    exact_mod_cast h
  have h2 : (⌈(m : ℚ) / n⌉ - 1) * n < m := by
    have h2q : ((⌈(m : ℚ) / n⌉ : ℚ) - 1) * n < m := by
      have h3 : (⌈(m : ℚ) / n⌉ : ℚ) - 1 < (m : ℚ) / n := by linarith
      exact (lt_div_iff₀ hnq).mp h3
    exact_mod_cast h2q
  have hexp : (⌈(m : ℚ) / n⌉ - 1) * n = ⌈(m : ℚ) / n⌉ * n - n := by ring
  constructor
  · rw [le_div_iff₀ hnq]
    have h4 : ⌈(m : ℚ) / n⌉ * n ≤ m + n - 1 := by linarith
    exact_mod_cast h4
  · rw [div_lt_iff₀ hnq]
    have hexp2 : (⌈(m : ℚ) / n⌉ + 1) * n = ⌈(m : ℚ) / n⌉ * n + n := by ring
    have h5 : m + n - 1 < (⌈(m : ℚ) / n⌉ + 1) * n := by linarith
    exact_mod_cast h5

/-- C1: with a positive `maximum_features_length` the bucket id equals
`min(floor(length / bucket_width), num_buckets)` for
`bucket_width = ceil(maximum_features_length / num_buckets)`; with the
bound unset the width is the fixed default `10`; in particular with
`maximum_features_length = 100` and `num_buckets = 10`, length `95` maps to
bucket `9` and length `150` is clamped to bucket `10`. -/
theorem bucketing_key_matches_spec (m n len : ℤ) (hm : 0 < m) (hn : 0 < n) :
    key_func (some m) n len
      = min ⌊(len : ℚ) / (⌈(m : ℚ) / (n : ℚ)⌉ : ℚ)⌋ n
    ∧ key_func none n len = min ⌊(len : ℚ) / 10⌋ n
    ∧ key_func (some 100) 10 95 = 9
    ∧ key_func (some 100) 10 150 = 10 := by
  have hw : (0 : ℤ) < ⌈(m : ℚ) / (n : ℚ)⌉ :=
    Int.ceil_pos.mpr (div_pos (by exact_mod_cast hm) (by exact_mod_cast hn))
  refine ⟨?_, ?_, by decide, by decide⟩
  · show min (Int.fdiv len (if m = 0 then 10 else Int.fdiv (m + n - 1) n)) n = _
    rw [if_neg (ne_of_gt hm)]
    rw [fdiv_add_pred_eq_rat_ceil m n hn, fdiv_eq_rat_floor len _ hw]
  · show min (Int.fdiv len 10) n = _
    rw [fdiv_eq_rat_floor len 10 (by norm_num)]
    norm_num

/-- C1 witness: the bucketing key at the specification's concrete inputs,
with the hypotheses discharged at `maximum_features_length = 100` and
`num_buckets = 10`. -/
theorem bucketing_key_matches_spec_witness :
    key_func (some 100) 10 95 = 9 ∧ key_func (some 100) 10 150 = 10 :=
  ⟨(bucketing_key_matches_spec 100 10 95 (by decide) (by decide)).2.2.1,
   (bucketing_key_matches_spec 100 10 150 (by decide) (by decide)).2.2.2⟩

/-- C6 witness: training mode without a labels file errors; predict mode
without one succeeds. -/
theorem input_fn_requires_labels_file_witness :
    Model.input_fn Mode.train 32 1000 5 "features.txt" none none none
      = Except.error ModelError.labelsFileRequired
    ∧ (Model.input_fn Mode.predict 32 1000 5 "features.txt" none none
        none).isOk = true :=
  ⟨(input_fn_requires_labels_file Mode.train 32 1000 5 "features.txt" none
      none none).1.mpr ⟨by decide, rfl⟩,
   (input_fn_requires_labels_file Mode.predict 32 1000 5 "features.txt" none
      none none).2.mpr (Or.inl rfl)⟩

/-- C7 witness: a length of `5` under a features bound of `10` passes the
filter. -/
theorem filter_example_conjunction_witness :
    Model.filter_example ⟨some 5⟩ Labels.pyNone (some 10) none = true :=
  (filter_example_conjunction (some 5) Labels.pyNone (some 10) none).2.2.2.1

/-- C9 witness: a batch with feature lengths `[2, 3]` and label lengths
`[4]` updates the `features` counter by `5` and the `labels` counter by
`4`. -/
theorem count_words_counters_witness :
    CounterUpdate.mk "features" 5
        ∈ Model.count_words ⟨some [2, 3]⟩ (Labels.mapping ⟨some [4]⟩)
    ∧ CounterUpdate.mk "labels" 4
        ∈ Model.count_words ⟨some [2, 3]⟩ (Labels.mapping ⟨some [4]⟩) := by
  have h := count_words_counters ⟨some [2, 3]⟩ (Labels.mapping ⟨some [4]⟩)
  have hf := h.2.2.1 [2, 3] rfl
  have hl := h.2.2.2 [4] rfl
  constructor
  · simpa using hf
  · simpa using hl
